import Mathlib

/-!
Shallow embedding of the starship-warehouse backend (`src/app/routes.py`,
`src/app/schemas.py`, `src/app/models.py`, `src/app/cleanup.py`,
`src/config.py`).

Modelling conventions:
* SQL rows become Lean structures; the database becomes a `State` of lists.
* Python/SQL floats (`capacity`, `volume`, `weight`, `range`) are modelled
  as rationals; integer columns as `Int`; timestamps as `Int` (hours).
* Each HTTP handler becomes a function `... → State → Outcome`: the
  `committed` constructor carries the state made visible by `db.commit()`,
  the `raised` constructor carries the session state at the moment the
  exception was raised (staged, uncommitted writes included).  `step`
  models the per-request transaction of `get_db`: a committed outcome
  publishes the new state, a raised outcome rolls back to the pre-request
  state (explicit `db.rollback()` in `cancel_loading`, implicit discard of
  the uncommitted session elsewhere).
* HTTP error codes: 404 is `ApiError.notFound`, 400 (business-rule
  conflict) is `ApiError.conflict`, 500 is `ApiError.serverError`.
* Pydantic request validation (`schemas.py`) is modelled by `Request.valid`;
  FastAPI rejects invalid bodies with 422 before the handler runs, so the
  reachability relation only takes valid requests through `step`.
-/

namespace Warehouse

/-- `schemas.StarshipStatus` / `models.StarshipStatus`. -/
inductive StarshipStatus where
  | available
  | maintenance
  | in_flight
  | loading
deriving DecidableEq, Repr

/-- `models.ShipmentStatus` (the `failed` member exists only in
`models.py`; `schemas.ShipmentStatus` omits it, so no request carries it). -/
inductive ShipmentStatus where
  | loading
  | completed
  | cancelled
  | failed
deriving DecidableEq, Repr

/-- A row of the `starships` table (`models.Starship`). -/
structure Starship where
  id : Nat
  name : String
  capacity : ℚ
  volume : ℚ
  range : ℚ
  status : StarshipStatus
deriving DecidableEq, Repr

/-- A row of the `cargo` table (`models.Cargo`). -/
structure Cargo where
  id : Nat
  name : String
  quantity : ℤ
  weight : ℚ
  volume : ℚ
deriving DecidableEq, Repr

/-- A row of the `shipment_history` table (`models.ShipmentHistory`). -/
structure ShipmentHistory where
  id : Nat
  starship_id : Nat
  cargo_id : Nat
  quantity : ℤ
  status : ShipmentStatus
  created_at : ℤ
deriving DecidableEq, Repr

/-- The database contents, plus the primary-key counters. -/
structure State where
  starships : List Starship
  cargos : List Cargo
  shipments : List ShipmentHistory
  nextStarshipId : Nat
  nextCargoId : Nat
  nextShipmentId : Nat
deriving DecidableEq, Repr

/-- `schemas.ShipmentCreate`: body of `POST /api/load`. -/
structure ShipmentCreate where
  starship_id : Nat
  cargo_id : Nat
  quantity : ℤ
deriving DecidableEq, Repr

/-- `schemas.StarshipBase`: body of starship create/update. -/
structure StarshipBase where
  name : String
  capacity : ℚ
  volume : ℚ
  range : ℚ
  status : StarshipStatus
deriving DecidableEq, Repr

/-- `schemas.CargoBase` (= `CargoCreate`): body of cargo create/update. -/
structure CargoBase where
  name : String
  quantity : ℤ
  weight : ℚ
  volume : ℚ
deriving DecidableEq, Repr

/-- Error responses the handlers raise: 404 / 400 / 500. -/
inductive ApiError where
  | notFound
  | conflict
  | serverError
deriving DecidableEq, Repr

/-- Successful response payloads (only the parts the claims mention). -/
inductive Response where
  | shipment : ShipmentHistory → Response
  | starship : Starship → Response
  | cargo : Cargo → Response
  | empty : Response
deriving DecidableEq, Repr

/-- Result of running a handler body inside its database session. -/
inductive Outcome where
  | committed : Response → State → Outcome
  | raised : ApiError → State → Outcome
deriving DecidableEq, Repr

/-- `db.query(models.Starship).filter(models.Starship.id == i).first()`. -/
def findStarship (s : State) (i : Nat) : Option Starship :=
  s.starships.find? fun st => decide (st.id = i)

/-- `db.query(models.Cargo).filter(models.Cargo.id == i).first()`. -/
def findCargo (s : State) (i : Nat) : Option Cargo :=
  s.cargos.find? fun c => decide (c.id = i)

/-- `db.query(models.ShipmentHistory).filter(... .id == i).first()`. -/
def findShipment (s : State) (i : Nat) : Option ShipmentHistory :=
  s.shipments.find? fun sh => decide (sh.id = i)

/-- Stage `cargo.quantity = q` for the cargo row with id `cid`. -/
def setCargoQuantity (s : State) (cid : Nat) (q : ℤ) : State :=
  { s with cargos := s.cargos.map fun c => if c.id = cid then { c with quantity := q } else c }

/-- Stage `starship.status = st` for the starship row with id `sid`. -/
def setStarshipStatus (s : State) (sid : Nat) (st : StarshipStatus) : State :=
  { s with starships := s.starships.map fun t => if t.id = sid then { t with status := st } else t }

/-- Stage `shipment.status = st` for the shipment row with id `hid`. -/
def setShipmentStatus (s : State) (hid : Nat) (st : ShipmentStatus) : State :=
  { s with shipments := s.shipments.map fun sh => if sh.id = hid then { sh with status := st } else sh }

/-- The `current_shipments` query of `load_cargo` / `get_starship_load`:
shipments of the given starship whose status is `loading`. -/
def loadingShipmentsFor (s : State) (sid : Nat) : List ShipmentHistory :=
  s.shipments.filter fun sh => decide (sh.starship_id = sid ∧ sh.status = ShipmentStatus.loading)

/-- `sum(sh.quantity * db.query(models.Cargo).get(sh.cargo_id).f for sh in l)`:
`none` models the `AttributeError` (HTTP 500) hit when a referenced cargo
row is absent. -/
def sumLoadQ (f : Cargo → ℚ) (s : State) : List ShipmentHistory → Option ℚ
  | [] => some 0
  | sh :: rest =>
    match findCargo s sh.cargo_id, sumLoadQ f s rest with
    | some c, some acc => some ((sh.quantity : ℚ) * f c + acc)
    | _, _ => none

/-- The query of `update_shipment_status` looking for a loading shipment of
starship `sid` other than shipment `excl`. -/
def otherLoading (s : State) (sid excl : Nat) : Prop :=
  ∃ t ∈ s.shipments, t.starship_id = sid ∧ t.status = ShipmentStatus.loading ∧ t.id ≠ excl

instance (s : State) (sid excl : Nat) : Decidable (otherLoading s sid excl) := by
  unfold otherLoading
  infer_instance

/-- The query of `update_starship_status` looking for any loading shipment
of starship `sid`. -/
def anyLoadingShipment (s : State) (sid : Nat) : Prop :=
  ∃ t ∈ s.shipments, t.starship_id = sid ∧ t.status = ShipmentStatus.loading

instance (s : State) (sid : Nat) : Decidable (anyLoadingShipment s sid) := by
  unfold anyLoadingShipment
  infer_instance

/-- Existence check of `delete_starship`: any history row for the starship. -/
def starshipHasHistory (s : State) (sid : Nat) : Prop :=
  ∃ sh ∈ s.shipments, sh.starship_id = sid

instance (s : State) (sid : Nat) : Decidable (starshipHasHistory s sid) := by
  unfold starshipHasHistory
  infer_instance

/-- Existence check of `delete_cargo`: any history row for the cargo. -/
def cargoHasHistory (s : State) (cid : Nat) : Prop :=
  ∃ sh ∈ s.shipments, sh.cargo_id = cid

instance (s : State) (cid : Nat) : Decidable (cargoHasHistory s cid) := by
  unfold cargoHasHistory
  infer_instance

/-- Name-uniqueness check used by starship create/update. -/
def starshipNameTaken (s : State) (n : String) : Prop :=
  ∃ st ∈ s.starships, st.name = n

instance (s : State) (n : String) : Decidable (starshipNameTaken s n) := by
  unfold starshipNameTaken
  infer_instance

/-- Name-uniqueness check used by cargo create/update. -/
def cargoNameTaken (s : State) (n : String) : Prop :=
  ∃ c ∈ s.cargos, c.name = n

instance (s : State) (n : String) : Decidable (cargoNameTaken s n) := by
  unfold cargoNameTaken
  infer_instance

/-- Apply a `StarshipBase` body to a row, as the
`for key, value in starship_update.dict().items(): setattr(...)` loop of
`update_starship` does (note: `status` is among the copied fields). -/
def applyStarshipBase (st : Starship) (req : StarshipBase) : Starship :=
  { st with name := req.name, capacity := req.capacity, volume := req.volume,
            range := req.range, status := req.status }

/-- Apply a `CargoBase` body to a row, as the `setattr` loop of
`update_cargo` does. -/
def applyCargoBase (c : Cargo) (req : CargoBase) : Cargo :=
  { c with name := req.name, quantity := req.quantity, weight := req.weight,
           volume := req.volume }

/-- `POST /api/load` (`routes.load_cargo`), checks in source order:
starship exists, starship available, cargo exists, enough cargo on hand,
in-flight weight/volume sums (500 if a referenced cargo row is gone),
capacity, volume; on success stages the cargo decrement, the starship
status, the new `loading` row, and commits. -/
def load_cargo (req : ShipmentCreate) (now : ℤ) (s : State) : Outcome :=
  match findStarship s req.starship_id with
  | none => .raised .notFound s
  | some starship =>
    if starship.status ≠ StarshipStatus.available then .raised .conflict s
    else
      match findCargo s req.cargo_id with
      | none => .raised .notFound s
      | some cargo =>
        if cargo.quantity < req.quantity then .raised .conflict s
        else
          match sumLoadQ Cargo.weight s (loadingShipmentsFor s starship.id),
              sumLoadQ Cargo.volume s (loadingShipmentsFor s starship.id) with
          | some current_weight, some current_volume =>
            if current_weight + (req.quantity : ℚ) * cargo.weight > starship.capacity then
              .raised .conflict s
            else if current_volume + (req.quantity : ℚ) * cargo.volume > starship.volume then
              .raised .conflict s
            else
              .committed
                (.shipment
                  { id := s.nextShipmentId, starship_id := req.starship_id,
                    cargo_id := req.cargo_id, quantity := req.quantity,
                    status := ShipmentStatus.loading, created_at := now })
                { setStarshipStatus (setCargoQuantity s cargo.id (cargo.quantity - req.quantity))
                    starship.id StarshipStatus.loading with
                  shipments :=
                    s.shipments ++
                      [{ id := s.nextShipmentId, starship_id := req.starship_id,
                         cargo_id := req.cargo_id, quantity := req.quantity,
                         status := ShipmentStatus.loading, created_at := now }],
                  nextShipmentId := s.nextShipmentId + 1 }
          | _, _ => .raised .serverError s

/-- `POST /api/starships` (`routes.create_starship`). -/
def create_starship (req : StarshipBase) (s : State) : Outcome :=
  if starshipNameTaken s req.name then .raised .conflict s
  else
    let st : Starship :=
      { id := s.nextStarshipId, name := req.name, capacity := req.capacity,
        volume := req.volume, range := req.range, status := req.status }
    .committed (.starship st)
      { s with starships := s.starships ++ [st], nextStarshipId := s.nextStarshipId + 1 }

/-- `PUT /api/starships/{id}` (`routes.update_starship`). -/
def update_starship (sid : Nat) (req : StarshipBase) (s : State) : Outcome :=
  match findStarship s sid with
  | none => .raised .notFound s
  | some st =>
    if st.status ∉ [StarshipStatus.available, StarshipStatus.maintenance] then
      .raised .conflict s
    else if req.name ≠ st.name ∧ starshipNameTaken s req.name then
      .raised .conflict s
    else
      .committed (.starship (applyStarshipBase st req))
        { s with starships :=
            s.starships.map fun t => if t.id = sid then applyStarshipBase t req else t }

/-- `DELETE /api/starships/{id}` (`routes.delete_starship`). -/
def delete_starship (sid : Nat) (s : State) : Outcome :=
  match findStarship s sid with
  | none => .raised .notFound s
  | some st =>
    if st.status ∉ [StarshipStatus.available, StarshipStatus.maintenance] then
      .raised .conflict s
    else if starshipHasHistory s sid then
      .raised .conflict s
    else
      .committed .empty { s with starships := s.starships.filter fun t => decide (t.id ≠ sid) }

/-- `POST /api/cargo` (`routes.create_cargo`). -/
def create_cargo (req : CargoBase) (s : State) : Outcome :=
  if cargoNameTaken s req.name then .raised .conflict s
  else
    let c : Cargo :=
      { id := s.nextCargoId, name := req.name, quantity := req.quantity,
        weight := req.weight, volume := req.volume }
    .committed (.cargo c)
      { s with cargos := s.cargos ++ [c], nextCargoId := s.nextCargoId + 1 }

/-- `PUT /api/cargo/{id}` (`routes.update_cargo`). -/
def update_cargo (cid : Nat) (req : CargoBase) (s : State) : Outcome :=
  match findCargo s cid with
  | none => .raised .notFound s
  | some c =>
    if req.name ≠ c.name ∧ cargoNameTaken s req.name then .raised .conflict s
    else
      .committed (.cargo (applyCargoBase c req))
        { s with cargos := s.cargos.map fun t => if t.id = cid then applyCargoBase t req else t }

/-- `DELETE /api/cargo/{id}` (`routes.delete_cargo`). -/
def delete_cargo (cid : Nat) (s : State) : Outcome :=
  match findCargo s cid with
  | none => .raised .notFound s
  | some _ =>
    if cargoHasHistory s cid then .raised .conflict s
    else
      .committed .empty { s with cargos := s.cargos.filter fun c => decide (c.id ≠ cid) }

/-- `POST /api/load/cancel/{id}` (`routes.cancel_loading`): note that the
cargo increment is staged *before* the starship lookup, and that the
starship is set to `available` unconditionally. -/
def cancel_loading (hid : Nat) (s : State) : Outcome :=
  match findShipment s hid with
  | none => .raised .notFound s
  | some sh =>
    if sh.status ≠ ShipmentStatus.loading then .raised .conflict s
    else
      match findCargo s sh.cargo_id with
      | none => .raised .notFound s
      | some c =>
        match findStarship (setCargoQuantity s c.id (c.quantity + sh.quantity))
            sh.starship_id with
        | none => .raised .notFound (setCargoQuantity s c.id (c.quantity + sh.quantity))
        | some st =>
          .committed (.shipment { sh with status := ShipmentStatus.cancelled })
            (setShipmentStatus
              (setStarshipStatus (setCargoQuantity s c.id (c.quantity + sh.quantity)) st.id
                StarshipStatus.available)
              hid ShipmentStatus.cancelled)

/-- `PUT /api/starships/{id}/status` (`routes.update_starship_status`). -/
def update_starship_status (sid : Nat) (ns : StarshipStatus) (s : State) : Outcome :=
  match findStarship s sid with
  | none => .raised .notFound s
  | some st =>
    if st.status = StarshipStatus.loading ∧ anyLoadingShipment s sid then
      .raised .conflict s
    else
      .committed (.starship { st with status := ns }) (setStarshipStatus s sid ns)

/-- `PUT /api/shipments/{id}/status` (`routes.update_shipment_status`):
no check of the shipment's *current* status; the `cancelled` branch stages
the cargo increment first (a missing cargo/starship row would crash with
500 mid-session); the starship is freed only if no *other* loading
shipment references it. -/
def update_shipment_status (hid : Nat) (ns : ShipmentStatus) (s : State) : Outcome :=
  match findShipment s hid with
  | none => .raised .notFound s
  | some sh =>
    match ns with
    | ShipmentStatus.cancelled =>
      match findCargo s sh.cargo_id with
      | none => .raised .serverError s
      | some c =>
        match findStarship s sh.starship_id with
        | none => .raised .serverError (setCargoQuantity s c.id (c.quantity + sh.quantity))
        | some st =>
          .committed (.shipment { sh with status := ns })
            (setShipmentStatus
              (if otherLoading (setCargoQuantity s c.id (c.quantity + sh.quantity)) st.id hid
                then setCargoQuantity s c.id (c.quantity + sh.quantity)
                else setStarshipStatus (setCargoQuantity s c.id (c.quantity + sh.quantity))
                  st.id StarshipStatus.available)
              hid ns)
    | ShipmentStatus.completed =>
      match findStarship s sh.starship_id with
      | none => .raised .serverError s
      | some st =>
        .committed (.shipment { sh with status := ns })
          (setShipmentStatus
            (if otherLoading s st.id hid then s
              else setStarshipStatus s st.id StarshipStatus.available)
            hid ns)
    | _ =>
      .committed (.shipment { sh with status := ns }) (setShipmentStatus s hid ns)

/-- `config.CLEANUP_HISTORY_DAYS` (retention period, days). -/
def CLEANUP_HISTORY_DAYS : ℤ := 1

/-- `config.STUCK_LOADING_HOURS` (staleness threshold, hours). -/
def STUCK_LOADING_HOURS : ℤ := 1

/-- `created_at` of the most recent history row of starship `sid`
(`order_by(created_at.desc()).first()`). -/
def latestCreatedAt (shipments : List ShipmentHistory) (sid : Nat) : Option ℤ :=
  ((shipments.filter fun sh => decide (sh.starship_id = sid)).map
    fun sh => sh.created_at).max?

/-- `cleanup.cleanup_old_data`, with `now = datetime.utcnow()` in hours:
first deletes history rows with `created_at < now - retention`, then — in
the same session, so against the already-thinned history — resets to
`available` each loading starship whose *surviving* latest row predates
the staleness threshold (a loading starship with no surviving row is left
untouched). One transaction, committed at the end. -/
def cleanup_old_data (now : ℤ) (s : State) : Outcome :=
  let histCutoff := now - 24 * CLEANUP_HISTORY_DAYS
  let stuckCutoff := now - STUCK_LOADING_HOURS
  let kept := s.shipments.filter fun sh => decide (¬ sh.created_at < histCutoff)
  let freeShip := fun (st : Starship) =>
    if st.status = StarshipStatus.loading then
      match latestCreatedAt kept st.id with
      | some t => if t < stuckCutoff then { st with status := StarshipStatus.available } else st
      | none => st
    else st
  .committed .empty { s with shipments := kept, starships := s.starships.map freeShip }

/-- One mutating API request (plus the maintenance sweep).  `load` and
`cleanup` carry the wall-clock instant the code reads from
`datetime.utcnow()`. -/
inductive Request where
  | load : ShipmentCreate → ℤ → Request
  | createStarship : StarshipBase → Request
  | updateStarship : Nat → StarshipBase → Request
  | deleteStarship : Nat → Request
  | createCargo : CargoBase → Request
  | updateCargo : Nat → CargoBase → Request
  | deleteCargo : Nat → Request
  | cancelLoading : Nat → Request
  | updateStarshipStatus : Nat → StarshipStatus → Request
  | updateShipmentStatus : Nat → ShipmentStatus → Request
  | cleanup : ℤ → Request
deriving DecidableEq, Repr

/-- Pydantic validation of `schemas.ShipmentCreate` (`quantity` has `gt=0`). -/
def ShipmentCreate.valid (r : ShipmentCreate) : Prop := 0 < r.quantity

instance (r : ShipmentCreate) : Decidable r.valid := by
  unfold ShipmentCreate.valid
  infer_instance

/-- Pydantic validation of `schemas.StarshipBase`. -/
def StarshipBase.valid (r : StarshipBase) : Prop :=
  2 ≤ r.name.length ∧ r.name.length ≤ 100 ∧
  0 < r.capacity ∧ r.capacity ≤ 1000000 ∧
  0 < r.volume ∧ r.volume ≤ 1000000 ∧
  0 < r.range ∧ r.range ≤ 10000000

instance (r : StarshipBase) : Decidable r.valid := by
  unfold StarshipBase.valid
  infer_instance

/-- Pydantic validation of `schemas.CargoBase`. -/
def CargoBase.valid (r : CargoBase) : Prop :=
  2 ≤ r.name.length ∧ r.name.length ≤ 100 ∧
  0 ≤ r.quantity ∧ r.quantity ≤ 1000000 ∧
  0 < r.weight ∧ r.weight ≤ 1000 ∧
  0 < r.volume ∧ r.volume ≤ 1000

instance (r : CargoBase) : Decidable r.valid := by
  unfold CargoBase.valid
  infer_instance

/-- Request-body validation FastAPI performs before each handler runs
(an invalid body is rejected with 422 and the handler never executes).
`updateShipmentStatus` cannot carry `failed`: `schemas.ShipmentStatus`
does not contain it. -/
def Request.valid : Request → Prop
  | .load r _ => r.valid
  | .createStarship r => r.valid
  | .updateStarship _ r => r.valid
  | .createCargo r => r.valid
  | .updateCargo _ r => r.valid
  | .updateShipmentStatus _ ns => ns ≠ ShipmentStatus.failed
  | _ => True

instance (r : Request) : Decidable r.valid := by
  unfold Request.valid
  cases r <;> infer_instance

/-- Dispatch a request to its handler. -/
def handle : Request → State → Outcome
  | .load r now, s => load_cargo r now s
  | .createStarship r, s => create_starship r s
  | .updateStarship i r, s => update_starship i r s
  | .deleteStarship i, s => delete_starship i s
  | .createCargo r, s => create_cargo r s
  | .updateCargo i r, s => update_cargo i r s
  | .deleteCargo i, s => delete_cargo i s
  | .cancelLoading i, s => cancel_loading i s
  | .updateStarshipStatus i ns, s => update_starship_status i ns s
  | .updateShipmentStatus i ns, s => update_shipment_status i ns s
  | .cleanup now, s => cleanup_old_data now s

/-- The per-request transaction of `db.get_db`: a committed session
publishes its state; a raised exception rolls the session back, so the
pre-request state stays in force. -/
def step (r : Request) (s : State) : Except ApiError Response × State :=
  match handle r s with
  | .committed resp s' => (.ok resp, s')
  | .raised e _ => (.error e, s)

/-- The empty database the service starts from. -/
def initState : State :=
  { starships := [], cargos := [], shipments := [],
    nextStarshipId := 1, nextCargoId := 1, nextShipmentId := 1 }

/-- States reachable from the empty database through schema-valid requests. -/
inductive Reachable : State → Prop where
  | init : Reachable initState
  | next : ∀ {s : State} (r : Request), Reachable s → r.valid → Reachable (step r s).2

/-! Basic lemmas about the session-state helpers. -/

theorem findStarship_setCargoQuantity (s : State) (cid : Nat) (q : ℤ) (i : Nat) :
    findStarship (setCargoQuantity s cid q) i = findStarship s i := rfl

theorem findCargo_setStarshipStatus (s : State) (sid : Nat) (st : StarshipStatus) (i : Nat) :
    findCargo (setStarshipStatus s sid st) i = findCargo s i := rfl

theorem findCargo_setShipmentStatus (s : State) (hid : Nat) (st : ShipmentStatus) (i : Nat) :
    findCargo (setShipmentStatus s hid st) i = findCargo s i := rfl

theorem findStarship_setShipmentStatus (s : State) (hid : Nat) (st : ShipmentStatus) (i : Nat) :
    findStarship (setShipmentStatus s hid st) i = findStarship s i := rfl

theorem shipments_setCargoQuantity (s : State) (cid : Nat) (q : ℤ) :
    (setCargoQuantity s cid q).shipments = s.shipments := rfl

theorem shipments_setStarshipStatus (s : State) (sid : Nat) (st : StarshipStatus) :
    (setStarshipStatus s sid st).shipments = s.shipments := rfl

/-- `find?` by key commutes with a key-preserving conditional update. -/
theorem find?_map_keyUpdate {α : Type} (key : α → Nat) (upd : α → α)
    (hupd : ∀ a, key (upd a) = key a) (l : List α) (i : Nat) :
    (l.map fun a => if key a = i then upd a else a).find? (fun a => decide (key a = i)) =
      ((l.find? fun a => decide (key a = i)).map fun a => if key a = i then upd a else a) := by
  induction l with
  | nil => rfl
  | cons a t ih =>
    by_cases h : key a = i
    · have h' : key (upd a) = i := by rw [hupd]; exact h
      simp [List.find?_cons, h, h']
    · simp [List.find?_cons, h, ih]

theorem findCargo_eq_id {s : State} {i : Nat} {c : Cargo} (h : findCargo s i = some c) :
    c.id = i := by
  have := List.find?_some h
  simpa using this

theorem findStarship_eq_id {s : State} {i : Nat} {st : Starship} (h : findStarship s i = some st) :
    st.id = i := by
  have := List.find?_some h
  simpa using this

theorem findShipment_eq_id {s : State} {i : Nat} {sh : ShipmentHistory}
    (h : findShipment s i = some sh) : sh.id = i := by
  have := List.find?_some h
  simpa using this

theorem findCargo_mem {s : State} {i : Nat} {c : Cargo} (h : findCargo s i = some c) :
    c ∈ s.cargos :=
  List.mem_of_find?_eq_some h

theorem findStarship_mem {s : State} {i : Nat} {st : Starship}
    (h : findStarship s i = some st) : st ∈ s.starships :=
  List.mem_of_find?_eq_some h

theorem findShipment_mem {s : State} {i : Nat} {sh : ShipmentHistory}
    (h : findShipment s i = some sh) : sh ∈ s.shipments :=
  List.mem_of_find?_eq_some h

theorem findCargo_setCargoQuantity_self {s : State} {i : Nat} {c : Cargo}
    (h : findCargo s i = some c) (q : ℤ) :
    findCargo (setCargoQuantity s c.id q) i = some { c with quantity := q } := by
  have hid : c.id = i := findCargo_eq_id h
  subst hid
  unfold findCargo setCargoQuantity
  rw [find?_map_keyUpdate Cargo.id (fun t => { t with quantity := q }) (fun _ => rfl)]
  unfold findCargo at h
  rw [h]
  have hc : c.id = c.id := rfl
  simp

theorem findStarship_setStarshipStatus_self {s : State} {i : Nat} {st : Starship}
    (h : findStarship s i = some st) (ns : StarshipStatus) :
    findStarship (setStarshipStatus s st.id ns) i = some { st with status := ns } := by
  have hid : st.id = i := findStarship_eq_id h
  subst hid
  unfold findStarship setStarshipStatus
  rw [find?_map_keyUpdate Starship.id (fun t => { t with status := ns }) (fun _ => rfl)]
  unfold findStarship at h
  rw [h]
  simp

/-! Characterizations of single handlers, shared by several claims below. -/

/-- Any outcome `step` reports as an error leaves the published state
untouched: the transaction wrapper returns the pre-request state for every
`raised` outcome. -/
theorem step_error_state {r : Request} {s : State} {e : ApiError}
    (h : (step r s).1 = .error e) : (step r s).2 = s := by
  unfold step at h ⊢
  cases hh : handle r s with
  | committed resp s' => rw [hh] at h; cases h
  | raised e' s'' => rfl

/-- Bridge: a handler body that raises makes `step` report the error and
keep the pre-request state. -/
theorem step_eq_of_handle_raised {r : Request} {s : State} {e : ApiError} {s'' : State}
    (h : handle r s = .raised e s'') : step r s = (.error e, s) := by
  unfold step
  rw [h]

/-- Bridge: a handler body that commits makes `step` publish its state. -/
theorem step_eq_of_handle_committed {r : Request} {s : State} {resp : Response} {s' : State}
    (h : handle r s = .committed resp s') : step r s = (.ok resp, s') := by
  unfold step
  rw [h]

/-- `delete_starship` on a starship that has shipment history always
raises 400: either the status guard or the history guard fires. -/
theorem delete_starship_history_conflict {s : State} {sid : Nat} {st : Starship}
    (hfind : findStarship s sid = some st) (hhist : starshipHasHistory s sid) :
    step (.deleteStarship sid) s = (.error .conflict, s) := by
  have h1 : delete_starship sid s = .raised .conflict s := by
    simp only [delete_starship, hfind]
    by_cases hstat : st.status ∉ [StarshipStatus.available, StarshipStatus.maintenance]
    · rw [if_pos hstat]
    · rw [if_neg hstat, if_pos hhist]
  exact step_eq_of_handle_raised h1

/-- `delete_cargo` on a cargo that has shipment history always raises 400. -/
theorem delete_cargo_history_conflict {s : State} {cid : Nat} {c : Cargo}
    (hfind : findCargo s cid = some c) (hhist : cargoHasHistory s cid) :
    step (.deleteCargo cid) s = (.error .conflict, s) := by
  have h1 : delete_cargo cid s = .raised .conflict s := by
    simp only [delete_cargo, hfind]
    rw [if_pos hhist]
  exact step_eq_of_handle_raised h1

/-- The shipment row `load_cargo` inserts on success. -/
def newShipmentRow (req : ShipmentCreate) (now : ℤ) (s : State) : ShipmentHistory :=
  { id := s.nextShipmentId, starship_id := req.starship_id, cargo_id := req.cargo_id,
    quantity := req.quantity, status := ShipmentStatus.loading, created_at := now }

/-- The state `load_cargo` commits on success. -/
def loadResultState (req : ShipmentCreate) (now : ℤ) (s : State) (c : Cargo) (st : Starship) :
    State :=
  { setStarshipStatus (setCargoQuantity s c.id (c.quantity - req.quantity)) st.id
      StarshipStatus.loading with
    shipments := s.shipments ++ [newShipmentRow req now s],
    nextShipmentId := s.nextShipmentId + 1 }

theorem load_cargo_no_starship {req : ShipmentCreate} {now : ℤ} {s : State}
    (h : findStarship s req.starship_id = none) :
    load_cargo req now s = .raised .notFound s := by
  simp only [load_cargo, h]

theorem load_cargo_not_available {req : ShipmentCreate} {now : ℤ} {s : State} {st : Starship}
    (h : findStarship s req.starship_id = some st) (hs : st.status ≠ StarshipStatus.available) :
    load_cargo req now s = .raised .conflict s := by
  simp only [load_cargo, h]
  rw [if_pos hs]

theorem load_cargo_no_cargo {req : ShipmentCreate} {now : ℤ} {s : State} {st : Starship}
    (h : findStarship s req.starship_id = some st) (hs : st.status = StarshipStatus.available)
    (hc : findCargo s req.cargo_id = none) :
    load_cargo req now s = .raised .notFound s := by
  simp only [load_cargo, h, hc]
  rw [if_neg (by simp [hs])]

theorem load_cargo_insufficient {req : ShipmentCreate} {now : ℤ} {s : State} {st : Starship}
    {c : Cargo} (h : findStarship s req.starship_id = some st)
    (hs : st.status = StarshipStatus.available) (hc : findCargo s req.cargo_id = some c)
    (hq : c.quantity < req.quantity) :
    load_cargo req now s = .raised .conflict s := by
  simp only [load_cargo, h, hc]
  rw [if_neg (by simp [hs]), if_pos hq]

theorem load_cargo_overweight {req : ShipmentCreate} {now : ℤ} {s : State} {st : Starship}
    {c : Cargo} {w v : ℚ} (h : findStarship s req.starship_id = some st)
    (hs : st.status = StarshipStatus.available) (hc : findCargo s req.cargo_id = some c)
    (hq : ¬ c.quantity < req.quantity)
    (hw : sumLoadQ Cargo.weight s (loadingShipmentsFor s st.id) = some w)
    (hv : sumLoadQ Cargo.volume s (loadingShipmentsFor s st.id) = some v)
    (hcw : w + (req.quantity : ℚ) * c.weight > st.capacity) :
    load_cargo req now s = .raised .conflict s := by
  simp only [load_cargo, h, hc, hw, hv]
  rw [if_neg (by simp [hs]), if_neg hq, if_pos hcw]

theorem load_cargo_overvolume {req : ShipmentCreate} {now : ℤ} {s : State} {st : Starship}
    {c : Cargo} {w v : ℚ} (h : findStarship s req.starship_id = some st)
    (hs : st.status = StarshipStatus.available) (hc : findCargo s req.cargo_id = some c)
    (hq : ¬ c.quantity < req.quantity)
    (hw : sumLoadQ Cargo.weight s (loadingShipmentsFor s st.id) = some w)
    (hv : sumLoadQ Cargo.volume s (loadingShipmentsFor s st.id) = some v)
    (hcw : ¬ w + (req.quantity : ℚ) * c.weight > st.capacity)
    (hcv : v + (req.quantity : ℚ) * c.volume > st.volume) :
    load_cargo req now s = .raised .conflict s := by
  simp only [load_cargo, h, hc, hw, hv]
  rw [if_neg (by simp [hs]), if_neg hq, if_neg hcw, if_pos hcv]

theorem load_cargo_success {req : ShipmentCreate} {now : ℤ} {s : State} {st : Starship}
    {c : Cargo} {w v : ℚ} (h : findStarship s req.starship_id = some st)
    (hs : st.status = StarshipStatus.available) (hc : findCargo s req.cargo_id = some c)
    (hq : ¬ c.quantity < req.quantity)
    (hw : sumLoadQ Cargo.weight s (loadingShipmentsFor s st.id) = some w)
    (hv : sumLoadQ Cargo.volume s (loadingShipmentsFor s st.id) = some v)
    (hcw : ¬ w + (req.quantity : ℚ) * c.weight > st.capacity)
    (hcv : ¬ v + (req.quantity : ℚ) * c.volume > st.volume) :
    load_cargo req now s =
      .committed (.shipment (newShipmentRow req now s)) (loadResultState req now s c st) := by
  simp only [load_cargo, h, hc, hw, hv]
  rw [if_neg (by simp [hs]), if_neg hq, if_neg hcw, if_neg hcv]
  rfl

/-! Concrete scenario states, used by witnesses and counterexamples.
Each `stepEq` lemma evaluates one handler call on a literal state. -/

set_option maxRecDepth 8000

/-- After creating starship `Falcon` (capacity 100, volume 100). -/
def w1 : State :=
  ⟨[⟨1, "Falcon", 100, 100, 10, .available⟩], [], [], 2, 1, 1⟩

/-- `w1` plus cargo `Ore` (quantity 100, unit weight 1, unit volume 1). -/
def w2 : State :=
  ⟨[⟨1, "Falcon", 100, 100, 10, .available⟩], [⟨1, "Ore", 100, 1, 1⟩], [], 2, 2, 1⟩

/-- `w2` after loading 10 Ore at time 0. -/
def w3 : State :=
  ⟨[⟨1, "Falcon", 100, 100, 10, .loading⟩], [⟨1, "Ore", 90, 1, 1⟩],
   [⟨1, 1, 1, 10, .loading, 0⟩], 2, 2, 2⟩

theorem stepEq_w1 :
    (step (.createStarship ⟨"Falcon", 100, 100, 10, .available⟩) initState).2 = w1 := by
  with_unfolding_all rfl

theorem stepEq_w2 : (step (.createCargo ⟨"Ore", 100, 1, 1⟩) w1).2 = w2 := by
  with_unfolding_all rfl

theorem stepEq_w3 : (step (.load ⟨1, 1, 10⟩ 0) w2).2 = w3 := by
  with_unfolding_all rfl

theorem reach_w1 : Reachable w1 := by
  have h := Reachable.next (.createStarship ⟨"Falcon", 100, 100, 10, .available⟩)
    Reachable.init (by decide)
  rwa [stepEq_w1] at h

theorem reach_w2 : Reachable w2 := by
  have h := Reachable.next (.createCargo ⟨"Ore", 100, 1, 1⟩) reach_w1 (by decide)
  rwa [stepEq_w2] at h

theorem reach_w3 : Reachable w3 := by
  have h := Reachable.next (.load ⟨1, 1, 10⟩ 0) reach_w2 (by decide)
  rwa [stepEq_w3] at h

/-- A starship in maintenance and no cargo at all: used to separate the
order of the cargo-existence check from the status check. -/
def stateC1 : State :=
  ⟨[⟨1, "Rust Bucket", 10, 10, 10, .maintenance⟩], [], [], 2, 1, 1⟩

theorem stepEq_stateC1 :
    (step (.createStarship ⟨"Rust Bucket", 10, 10, 10, .maintenance⟩) initState).2 = stateC1 := by
  with_unfolding_all rfl

theorem reach_stateC1 : Reachable stateC1 := by
  have h := Reachable.next (.createStarship ⟨"Rust Bucket", 10, 10, 10, .maintenance⟩)
    Reachable.init (by decide)
  rwa [stepEq_stateC1] at h

/-- Claim C1 (amended): full characterization of `POST /api/load` with the
code's actual check order — starship existence (404), starship status
(400), cargo existence (404), on-hand quantity (400), capacity (400),
volume (400); otherwise the cargo is decremented by the requested
quantity, the starship is set to `loading`, a `loading` shipment row is
inserted, and that row is returned. -/
theorem C1_load_characterization (req : ShipmentCreate) (now : ℤ) (s : State) :
    (findStarship s req.starship_id = none →
      step (.load req now) s = (.error .notFound, s)) ∧
    (∀ st, findStarship s req.starship_id = some st → st.status ≠ StarshipStatus.available →
      step (.load req now) s = (.error .conflict, s)) ∧
    (∀ st, findStarship s req.starship_id = some st → st.status = StarshipStatus.available →
      findCargo s req.cargo_id = none →
      step (.load req now) s = (.error .notFound, s)) ∧
    (∀ st c, findStarship s req.starship_id = some st →
      st.status = StarshipStatus.available → findCargo s req.cargo_id = some c →
      c.quantity < req.quantity →
      step (.load req now) s = (.error .conflict, s)) ∧
    (∀ st c w v, findStarship s req.starship_id = some st →
      st.status = StarshipStatus.available → findCargo s req.cargo_id = some c →
      ¬ c.quantity < req.quantity →
      sumLoadQ Cargo.weight s (loadingShipmentsFor s st.id) = some w →
      sumLoadQ Cargo.volume s (loadingShipmentsFor s st.id) = some v →
      w + (req.quantity : ℚ) * c.weight > st.capacity →
      step (.load req now) s = (.error .conflict, s)) ∧
    (∀ st c w v, findStarship s req.starship_id = some st →
      st.status = StarshipStatus.available → findCargo s req.cargo_id = some c →
      ¬ c.quantity < req.quantity →
      sumLoadQ Cargo.weight s (loadingShipmentsFor s st.id) = some w →
      sumLoadQ Cargo.volume s (loadingShipmentsFor s st.id) = some v →
      ¬ w + (req.quantity : ℚ) * c.weight > st.capacity →
      v + (req.quantity : ℚ) * c.volume > st.volume →
      step (.load req now) s = (.error .conflict, s)) ∧
    (∀ st c w v, findStarship s req.starship_id = some st →
      st.status = StarshipStatus.available → findCargo s req.cargo_id = some c →
      ¬ c.quantity < req.quantity →
      sumLoadQ Cargo.weight s (loadingShipmentsFor s st.id) = some w →
      sumLoadQ Cargo.volume s (loadingShipmentsFor s st.id) = some v →
      ¬ w + (req.quantity : ℚ) * c.weight > st.capacity →
      ¬ v + (req.quantity : ℚ) * c.volume > st.volume →
      step (.load req now) s =
        (.ok (.shipment (newShipmentRow req now s)), loadResultState req now s c st) ∧
      findCargo (loadResultState req now s c st) req.cargo_id =
        some { c with quantity := c.quantity - req.quantity } ∧
      findStarship (loadResultState req now s c st) req.starship_id =
        some { st with status := StarshipStatus.loading } ∧
      (loadResultState req now s c st).shipments = s.shipments ++ [newShipmentRow req now s]) := by
  refine ⟨fun h => step_eq_of_handle_raised (load_cargo_no_starship h),
    fun st h hs => step_eq_of_handle_raised (load_cargo_not_available h hs),
    fun st h hs hc => step_eq_of_handle_raised (load_cargo_no_cargo h hs hc),
    fun st c h hs hc hq => step_eq_of_handle_raised (load_cargo_insufficient h hs hc hq),
    fun st c w v h hs hc hq hw hv hcw =>
      step_eq_of_handle_raised (load_cargo_overweight h hs hc hq hw hv hcw),
    fun st c w v h hs hc hq hw hv hcw hcv =>
      step_eq_of_handle_raised (load_cargo_overvolume h hs hc hq hw hv hcw hcv),
    fun st c w v h hs hc hq hw hv hcw hcv => ?_⟩
  refine ⟨step_eq_of_handle_committed (load_cargo_success h hs hc hq hw hv hcw hcv), ?_, ?_, rfl⟩
  · exact findCargo_setCargoQuantity_self hc (c.quantity - req.quantity)
  · exact findStarship_setStarshipStatus_self
      (s := setCargoQuantity s c.id (c.quantity - req.quantity)) h StarshipStatus.loading

/-- Witness for C1: on the empty database, loading references a missing
starship and the request fails with 404, leaving the state unchanged. -/
theorem C1_load_characterization_witness :
    step (.load ⟨1, 1, 1⟩ 0) initState = (.error .notFound, initState) :=
  (C1_load_characterization ⟨1, 1, 1⟩ 0 initState).1 rfl

/-- Counterexample to C1 as stated: in the reachable state `stateC1` the
referenced cargo is absent, yet the load request fails with 400 (the
starship-status check fires first), not with NotFound as the claim
demands for every request with an absent cargo. -/
theorem C1_counterexample :
    Reachable stateC1 ∧ findCargo stateC1 1 = none ∧
    step (.load ⟨1, 1, 1⟩ 0) stateC1 = (.error .conflict, stateC1) ∧
    ApiError.conflict ≠ ApiError.notFound := by
  refine ⟨reach_stateC1, rfl, ?_, by decide⟩
  with_unfolding_all rfl

/-! Claim C9: the worked example from the spec. -/

/-- The spec's example state: an available starship with capacity 1000 and
volume 500, and a cargo with unit weight 10, unit volume 5, quantity 80. -/
def stateC9 : State :=
  ⟨[⟨1, "Enterprise", 1000, 500, 10, .available⟩], [⟨1, "Ore", 80, 10, 5⟩], [], 2, 2, 1⟩

/-- State after the first (successful) load of 60 units. -/
def stateC9b : State :=
  ⟨[⟨1, "Enterprise", 1000, 500, 10, .loading⟩], [⟨1, "Ore", 20, 10, 5⟩],
   [⟨1, 1, 1, 60, .loading, 0⟩], 2, 2, 2⟩

/-- Claim C9: from the spec's example state, loading 60 units succeeds
(weight 600 ≤ 1000, volume 300 ≤ 500) and a subsequent load of 50 units
onto the same starship fails with an error. -/
theorem C9_example_scenario :
    step (.load ⟨1, 1, 60⟩ 0) stateC9 =
      (.ok (.shipment ⟨1, 1, 1, 60, .loading, 0⟩), stateC9b) ∧
    step (.load ⟨1, 1, 50⟩ 1) stateC9b = (.error .conflict, stateC9b) := by
  constructor
  · with_unfolding_all rfl
  · with_unfolding_all rfl

/-! Claim C10: CRUD endpoints accept a client-supplied status. -/

/-- State after creating a starship whose request body carries
`status = loading`. -/
def stateC10 : State :=
  ⟨[⟨1, "GhostShip", 10, 10, 10, .loading⟩], [], [], 2, 1, 1⟩

/-- State after creating a starship in maintenance. -/
def stateC10m : State :=
  ⟨[⟨1, "Alpha", 5, 5, 5, .maintenance⟩], [], [], 2, 1, 1⟩

/-- `stateC10m` after an update whose body rewrites `status` to
`in_flight`. -/
def stateC10u : State :=
  ⟨[⟨1, "Alpha", 5, 5, 5, .in_flight⟩], [], [], 2, 1, 1⟩

/-- Claim C10: the create endpoint accepts a schema-valid body with
`status = loading` and commits a loading starship although no shipment
exists; the update endpoint on a maintenance starship rewrites `status`
(here to `in_flight`) along with the other fields.  Workflow statuses can
thus be entered directly through CRUD. -/
theorem C10_crud_sets_status :
    Request.valid (.createStarship ⟨"GhostShip", 10, 10, 10, .loading⟩) ∧
    step (.createStarship ⟨"GhostShip", 10, 10, 10, .loading⟩) initState =
      (.ok (.starship ⟨1, "GhostShip", 10, 10, 10, .loading⟩), stateC10) ∧
    stateC10.shipments = [] ∧
    Request.valid (.updateStarship 1 ⟨"Alpha", 5, 5, 5, .in_flight⟩) ∧
    step (.updateStarship 1 ⟨"Alpha", 5, 5, 5, .in_flight⟩) stateC10m =
      (.ok (.starship ⟨1, "Alpha", 5, 5, 5, .in_flight⟩), stateC10u) := by
  refine ⟨by decide, ?_, rfl, by decide, ?_⟩
  · with_unfolding_all rfl
  · with_unfolding_all rfl

/-! Claims C5 and C8. -/

/-- Claim C5: whenever a mutating operation reports an error, the
published state is exactly the pre-request state — the per-request
transaction commits only on success and rolls back on every raised
exception, so no partial write is observable. -/
theorem C5_error_means_rollback (r : Request) (s : State) (e : ApiError)
    (h : (step r s).1 = .error e) : (step r s).2 = s :=
  step_error_state h

/-- A session with a loading shipment whose starship row is absent: the
cancel handler stages a cargo increment and only then fails to find the
starship, so the rollback in its `except` branch is what keeps the
observable state unchanged. -/
def stateC5 : State :=
  ⟨[], [⟨1, "Ore", 10, 1, 1⟩], [⟨1, 7, 1, 5, .loading, 0⟩], 1, 2, 2⟩

/-- Witness for C5: cancelling shipment 1 in `stateC5` raises 404 after
staging a write, and the published state is unchanged. -/
theorem C5_error_means_rollback_witness :
    (step (.cancelLoading 1) stateC5).2 = stateC5 :=
  C5_error_means_rollback (.cancelLoading 1) stateC5 .notFound (by with_unfolding_all rfl)

/-- Claim C8: deleting a starship or cargo referenced by at least one
shipment-history row always fails with 400 and leaves the state (hence
the entity) untouched: for starships either the status guard or the
history guard fires, for cargo the history guard fires. -/
theorem C8_delete_with_history_conflict (s : State) (sid cid : Nat) :
    (∀ st, findStarship s sid = some st → starshipHasHistory s sid →
      step (.deleteStarship sid) s = (.error .conflict, s)) ∧
    (∀ c, findCargo s cid = some c → cargoHasHistory s cid →
      step (.deleteCargo cid) s = (.error .conflict, s)) :=
  ⟨fun _ h hh => delete_starship_history_conflict h hh,
   fun _ h hh => delete_cargo_history_conflict h hh⟩

/-- Witness for C8: in the loaded state `w3` both the starship and the
cargo are referenced by the shipment row, and both deletions fail with
400 leaving the state unchanged. -/
theorem C8_delete_with_history_conflict_witness :
    step (.deleteStarship 1) w3 = (.error .conflict, w3) ∧
    step (.deleteCargo 1) w3 = (.error .conflict, w3) :=
  ⟨(C8_delete_with_history_conflict w3 1 1).1 ⟨1, "Falcon", 100, 100, 10, .loading⟩
      rfl (by decide),
   (C8_delete_with_history_conflict w3 1 1).2 ⟨1, "Ore", 90, 1, 1⟩
      rfl (by decide)⟩

/-! Characterizations of `cancel_loading` and of the `cancelled` branch of
`update_shipment_status`. -/

theorem cancel_loading_wrong_status {s : State} {hid : Nat} {sh : ShipmentHistory}
    (h : findShipment s hid = some sh) (hs : sh.status ≠ ShipmentStatus.loading) :
    cancel_loading hid s = .raised .conflict s := by
  simp only [cancel_loading, h]
  rw [if_pos hs]

theorem cancel_loading_ok {s : State} {hid : Nat} {sh : ShipmentHistory} {c : Cargo}
    {st : Starship} (h : findShipment s hid = some sh) (hs : sh.status = ShipmentStatus.loading)
    (hc : findCargo s sh.cargo_id = some c) (hst : findStarship s sh.starship_id = some st) :
    cancel_loading hid s =
      .committed (.shipment { sh with status := ShipmentStatus.cancelled })
        (setShipmentStatus
          (setStarshipStatus (setCargoQuantity s c.id (c.quantity + sh.quantity)) st.id
            StarshipStatus.available)
          hid ShipmentStatus.cancelled) := by
  simp only [cancel_loading, h, hc]
  rw [if_neg (by simp [hs]), findStarship_setCargoQuantity, hst]

theorem update_shipment_cancelled {s : State} {hid : Nat} {sh : ShipmentHistory} {c : Cargo}
    {st : Starship} (h : findShipment s hid = some sh)
    (hc : findCargo s sh.cargo_id = some c) (hst : findStarship s sh.starship_id = some st) :
    update_shipment_status hid ShipmentStatus.cancelled s =
      .committed (.shipment { sh with status := ShipmentStatus.cancelled })
        (setShipmentStatus
          (if otherLoading s st.id hid
            then setCargoQuantity s c.id (c.quantity + sh.quantity)
            else setStarshipStatus (setCargoQuantity s c.id (c.quantity + sh.quantity)) st.id
              StarshipStatus.available)
          hid ShipmentStatus.cancelled) := by
  simp only [update_shipment_status, h, hc, hst]
  rfl

/-- Effects of `PUT /api/shipments/{id}/status` with body `cancelled`,
for any current shipment status: the request succeeds, the cargo is
incremented by the shipment quantity, and the starship is freed exactly
when no other loading shipment references it. -/
theorem update_cancel_effects {s : State} {hid : Nat} {sh : ShipmentHistory} {c : Cargo}
    {st : Starship} (h : findShipment s hid = some sh)
    (hc : findCargo s sh.cargo_id = some c) (hst : findStarship s sh.starship_id = some st) :
    (step (.updateShipmentStatus hid .cancelled) s).1 =
      .ok (.shipment { sh with status := ShipmentStatus.cancelled }) ∧
    findCargo (step (.updateShipmentStatus hid .cancelled) s).2 sh.cargo_id =
      some { c with quantity := c.quantity + sh.quantity } ∧
    (¬ otherLoading s st.id hid →
      findStarship (step (.updateShipmentStatus hid .cancelled) s).2 sh.starship_id =
        some { st with status := StarshipStatus.available }) ∧
    (otherLoading s st.id hid →
      findStarship (step (.updateShipmentStatus hid .cancelled) s).2 sh.starship_id = some st) := by
  have hstep := step_eq_of_handle_committed (r := .updateShipmentStatus hid .cancelled)
    (update_shipment_cancelled h hc hst)
  rw [hstep]
  by_cases ho : otherLoading s st.id hid
  · rw [if_pos ho]
    exact ⟨rfl, findCargo_setCargoQuantity_self hc _, fun hn => absurd ho hn, fun _ => hst⟩
  · rw [if_neg ho]
    refine ⟨rfl, findCargo_setCargoQuantity_self hc _, fun _ => ?_, fun hyes => absurd hyes ho⟩
    exact findStarship_setStarshipStatus_self
      (s := setCargoQuantity s c.id (c.quantity + sh.quantity)) hst StarshipStatus.available

/-- Claim C3 (amended): cancelling a loading shipment restores the cargo
quantity exactly on both endpoints; the generic status-update endpoint
frees the starship iff no other loading shipment references it, while the
dedicated cancel endpoint sets the starship to `available`
unconditionally. -/
theorem C3_cancel_semantics (s : State) (hid : Nat) :
    (∀ sh c st, findShipment s hid = some sh → sh.status = ShipmentStatus.loading →
      findCargo s sh.cargo_id = some c → findStarship s sh.starship_id = some st →
      (step (.cancelLoading hid) s).1 =
        .ok (.shipment { sh with status := ShipmentStatus.cancelled }) ∧
      findCargo (step (.cancelLoading hid) s).2 sh.cargo_id =
        some { c with quantity := c.quantity + sh.quantity } ∧
      findStarship (step (.cancelLoading hid) s).2 sh.starship_id =
        some { st with status := StarshipStatus.available }) ∧
    (∀ sh c st, findShipment s hid = some sh → sh.status = ShipmentStatus.loading →
      findCargo s sh.cargo_id = some c → findStarship s sh.starship_id = some st →
      (step (.updateShipmentStatus hid .cancelled) s).1 =
        .ok (.shipment { sh with status := ShipmentStatus.cancelled }) ∧
      findCargo (step (.updateShipmentStatus hid .cancelled) s).2 sh.cargo_id =
        some { c with quantity := c.quantity + sh.quantity } ∧
      (¬ otherLoading s st.id hid →
        findStarship (step (.updateShipmentStatus hid .cancelled) s).2 sh.starship_id =
          some { st with status := StarshipStatus.available }) ∧
      (otherLoading s st.id hid →
        findStarship (step (.updateShipmentStatus hid .cancelled) s).2 sh.starship_id =
          some st)) := by
  constructor
  · intro sh c st h hs hc hst
    have hstep := step_eq_of_handle_committed (r := .cancelLoading hid)
      (cancel_loading_ok h hs hc hst)
    rw [hstep]
    refine ⟨rfl, findCargo_setCargoQuantity_self hc _, ?_⟩
    exact findStarship_setStarshipStatus_self
      (s := setCargoQuantity s c.id (c.quantity + sh.quantity)) hst StarshipStatus.available
  · intro sh c st h _ hc hst
    exact update_cancel_effects h hc hst

/-! Traces for the C3/C4 counterexamples. -/

/-- `w3` after cancelling shipment 1 through the status-update endpoint. -/
def w4 : State :=
  ⟨[⟨1, "Falcon", 100, 100, 10, .available⟩], [⟨1, "Ore", 100, 1, 1⟩],
   [⟨1, 1, 1, 10, .cancelled, 0⟩], 2, 2, 2⟩

/-- `w4` after loading 20 Ore at time 1. -/
def w5 : State :=
  ⟨[⟨1, "Falcon", 100, 100, 10, .loading⟩], [⟨1, "Ore", 80, 1, 1⟩],
   [⟨1, 1, 1, 10, .cancelled, 0⟩, ⟨2, 1, 1, 20, .loading, 1⟩], 2, 2, 3⟩

/-- `w5` after setting shipment 1 back to `loading` through the
status-update endpoint: two loading shipments now reference starship 1. -/
def w6 : State :=
  ⟨[⟨1, "Falcon", 100, 100, 10, .loading⟩], [⟨1, "Ore", 80, 1, 1⟩],
   [⟨1, 1, 1, 10, .loading, 0⟩, ⟨2, 1, 1, 20, .loading, 1⟩], 2, 2, 3⟩

/-- `w6` after `POST /api/load/cancel/2`: the starship is freed although
shipment 1 still loads it. -/
def w7 : State :=
  ⟨[⟨1, "Falcon", 100, 100, 10, .available⟩], [⟨1, "Ore", 100, 1, 1⟩],
   [⟨1, 1, 1, 10, .loading, 0⟩, ⟨2, 1, 1, 20, .cancelled, 1⟩], 2, 2, 3⟩

/-- `w4` after cancelling the already-cancelled shipment 1 again. -/
def w4c : State :=
  ⟨[⟨1, "Falcon", 100, 100, 10, .available⟩], [⟨1, "Ore", 110, 1, 1⟩],
   [⟨1, 1, 1, 10, .cancelled, 0⟩], 2, 2, 2⟩

theorem stepEq_w4 : (step (.updateShipmentStatus 1 .cancelled) w3).2 = w4 := by
  with_unfolding_all rfl

theorem stepEq_w5 : (step (.load ⟨1, 1, 20⟩ 1) w4).2 = w5 := by
  with_unfolding_all rfl

theorem stepEq_w6 : (step (.updateShipmentStatus 1 .loading) w5).2 = w6 := by
  with_unfolding_all rfl

theorem reach_w4 : Reachable w4 := by
  have h := Reachable.next (.updateShipmentStatus 1 .cancelled) reach_w3 (by decide)
  rwa [stepEq_w4] at h

theorem reach_w5 : Reachable w5 := by
  have h := Reachable.next (.load ⟨1, 1, 20⟩ 1) reach_w4 (by decide)
  rwa [stepEq_w5] at h

theorem reach_w6 : Reachable w6 := by
  have h := Reachable.next (.updateShipmentStatus 1 .loading) reach_w5 (by decide)
  rwa [stepEq_w6] at h

/-- Counterexample to C3 as stated: in the reachable state `w6` shipment 2
is in `loading` and another loading shipment (id 1) references starship 1,
yet `POST /api/load/cancel/2` sets the starship to `available` — the
"if and only if" direction fails for the dedicated cancel endpoint. -/
theorem C3_counterexample :
    Reachable w6 ∧
    (findShipment w6 2).map ShipmentHistory.status = some ShipmentStatus.loading ∧
    step (.cancelLoading 2) w6 = (.ok (.shipment ⟨2, 1, 1, 20, .cancelled, 1⟩), w7) ∧
    (∃ t ∈ w7.shipments, t.starship_id = 1 ∧ t.status = ShipmentStatus.loading ∧ t.id ≠ 2) ∧
    (findStarship w7 1).map Starship.status = some StarshipStatus.available := by
  refine ⟨reach_w6, rfl, ?_, by decide, rfl⟩
  with_unfolding_all rfl

/-- Witness for C3: cancelling the loading shipment of `w3` through
`POST /api/load/cancel/1` restores the cargo to 100 and frees the
starship. -/
theorem C3_cancel_semantics_witness :
    (step (.cancelLoading 1) w3).1 =
      .ok (.shipment ⟨1, 1, 1, 10, .cancelled, 0⟩) ∧
    findCargo (step (.cancelLoading 1) w3).2 1 = some ⟨1, "Ore", 100, 1, 1⟩ ∧
    findStarship (step (.cancelLoading 1) w3).2 1 =
      some ⟨1, "Falcon", 100, 100, 10, .available⟩ :=
  (C3_cancel_semantics w3 1).1 ⟨1, 1, 1, 10, .loading, 0⟩ ⟨1, "Ore", 90, 1, 1⟩
    ⟨1, "Falcon", 100, 100, 10, .loading⟩ rfl rfl rfl rfl

/-- Claim C4 (amended): only the dedicated cancel endpoint restricts
cancellation to loading shipments — it answers 400 and leaves the state
unchanged for any other status; the generic status-update endpoint
accepts `cancelled` for a shipment in any current status and still
applies the cargo restitution. -/
theorem C4_cancel_guard (s : State) (hid : Nat) :
    (∀ sh, findShipment s hid = some sh → sh.status ≠ ShipmentStatus.loading →
      step (.cancelLoading hid) s = (.error .conflict, s)) ∧
    (∀ sh c st, findShipment s hid = some sh →
      findCargo s sh.cargo_id = some c → findStarship s sh.starship_id = some st →
      (step (.updateShipmentStatus hid .cancelled) s).1 =
        .ok (.shipment { sh with status := ShipmentStatus.cancelled }) ∧
      findCargo (step (.updateShipmentStatus hid .cancelled) s).2 sh.cargo_id =
        some { c with quantity := c.quantity + sh.quantity }) := by
  constructor
  · intro sh h hs
    exact step_eq_of_handle_raised (r := .cancelLoading hid) (cancel_loading_wrong_status h hs)
  · intro sh c st h hc hst
    have he := update_cancel_effects h hc hst
    exact ⟨he.1, he.2.1⟩

/-- Witness for C4: in `w4` shipment 1 is cancelled, and the dedicated
cancel endpoint rejects it with 400 leaving the state unchanged. -/
theorem C4_cancel_guard_witness :
    step (.cancelLoading 1) w4 = (.error .conflict, w4) :=
  (C4_cancel_guard w4 1).1 ⟨1, 1, 1, 10, .cancelled, 0⟩ rfl (by decide)

/-- Counterexample to C4 as stated: in the reachable state `w4` shipment 1
is already cancelled, yet `PUT /api/shipments/1/status` with body
`cancelled` succeeds and increments the cargo from 100 to 110 — the
request neither fails nor leaves the cargo unchanged. -/
theorem C4_counterexample :
    Reachable w4 ∧
    (findShipment w4 1).map ShipmentHistory.status = some ShipmentStatus.cancelled ∧
    step (.updateShipmentStatus 1 .cancelled) w4 =
      (.ok (.shipment ⟨1, 1, 1, 10, .cancelled, 0⟩), w4c) ∧
    (findCargo w4 1).map Cargo.quantity = some 100 ∧
    (findCargo w4c 1).map Cargo.quantity = some 110 := by
  refine ⟨reach_w4, rfl, ?_, rfl, rfl⟩
  with_unfolding_all rfl

/-! Claim C6: the maintenance sweep. -/

/-- The state the maintenance sweep commits (spelled out for proofs;
definitionally the committed state of `cleanup_old_data`). -/
def cleanupState (now : ℤ) (s : State) : State :=
  let kept := s.shipments.filter fun sh =>
    decide (¬ sh.created_at < now - 24 * CLEANUP_HISTORY_DAYS)
  { s with shipments := kept,
           starships := s.starships.map fun st =>
             if st.status = StarshipStatus.loading then
               match latestCreatedAt kept st.id with
               | some t =>
                 if t < now - STUCK_LOADING_HOURS then
                   { st with status := StarshipStatus.available }
                 else st
               | none => st
             else st }

theorem cleanup_step (now : ℤ) (s : State) :
    step (.cleanup now) s = (.ok .empty, cleanupState now s) := rfl

/-- Claim C6 (amended): after one sweep every history row older than the
retention cutoff is gone and every younger row survives; and every
starship that was loading is reset to `available` provided its latest
*surviving* history row predates the staleness cutoff.  A loading
starship whose rows were all just deleted (or that never had any) keeps
its `loading` status, because the handler deletes first and then looks
for the latest remaining row. -/
theorem C6_cleanup_effects (now : ℤ) (s : State) :
    (∀ sh ∈ ((step (.cleanup now) s).2).shipments,
      ¬ sh.created_at < now - 24 * CLEANUP_HISTORY_DAYS) ∧
    (∀ sh ∈ s.shipments, ¬ sh.created_at < now - 24 * CLEANUP_HISTORY_DAYS →
      sh ∈ ((step (.cleanup now) s).2).shipments) ∧
    (∀ st ∈ s.starships, st.status = StarshipStatus.loading →
      ∀ t, latestCreatedAt ((step (.cleanup now) s).2).shipments st.id = some t →
        t < now - STUCK_LOADING_HOURS →
        { st with status := StarshipStatus.available } ∈
          ((step (.cleanup now) s).2).starships) := by
  rw [cleanup_step]
  refine ⟨?_, ?_, ?_⟩
  · intro sh hm
    have := List.mem_filter.mp hm
    simpa using this.2
  · intro sh hm hage
    exact List.mem_filter.mpr ⟨hm, by simpa using hage⟩
  · intro st hm hs t hlatest ht
    have hfree : (if st.status = StarshipStatus.loading then
        match latestCreatedAt (s.shipments.filter fun sh =>
          decide (¬ sh.created_at < now - 24 * CLEANUP_HISTORY_DAYS)) st.id with
        | some u =>
          if u < now - STUCK_LOADING_HOURS then
            { st with status := StarshipStatus.available }
          else st
        | none => st
      else st) = { st with status := StarshipStatus.available } := by
      rw [if_pos hs]
      rw [show latestCreatedAt (s.shipments.filter fun sh =>
          decide (¬ sh.created_at < now - 24 * CLEANUP_HISTORY_DAYS)) st.id = some t
        from hlatest]
      show (if t < now - STUCK_LOADING_HOURS then
        ({ st with status := StarshipStatus.available } : Starship) else st) =
        { st with status := StarshipStatus.available }
      rw [if_pos ht]
    exact List.mem_map.mpr ⟨st, hm, hfree⟩

/-- A loading starship whose only history row (at hour −10) survives the
retention cutoff (−24) but predates the staleness cutoff (−1). -/
def stateC6w : State :=
  ⟨[⟨1, "Falcon", 100, 100, 10, .loading⟩], [⟨1, "Ore", 95, 1, 1⟩],
   [⟨1, 1, 1, 5, .loading, -10⟩], 2, 2, 2⟩

/-- Witness for C6: sweeping `stateC6w` at hour 0 resets the stuck
starship to `available`. -/
theorem C6_cleanup_effects_witness :
    (⟨1, "Falcon", 100, 100, 10, .available⟩ : Starship) ∈
      ((step (.cleanup 0) stateC6w).2).starships :=
  (C6_cleanup_effects 0 stateC6w).2.2 ⟨1, "Falcon", 100, 100, 10, .loading⟩
    (by decide) rfl (-10) (by with_unfolding_all rfl) (by decide)

/-- `w2` after loading 5 Ore at hour −100. -/
def stateC6 : State :=
  ⟨[⟨1, "Falcon", 100, 100, 10, .loading⟩], [⟨1, "Ore", 95, 1, 1⟩],
   [⟨1, 1, 1, 5, .loading, -100⟩], 2, 2, 2⟩

/-- `stateC6` after the sweep at hour 0: the row is purged, the ship
stays loading. -/
def stateC6p : State :=
  ⟨[⟨1, "Falcon", 100, 100, 10, .loading⟩], [⟨1, "Ore", 95, 1, 1⟩], [], 2, 2, 2⟩

theorem stepEq_stateC6 : (step (.load ⟨1, 1, 5⟩ (-100)) w2).2 = stateC6 := by
  with_unfolding_all rfl

theorem reach_stateC6 : Reachable stateC6 := by
  have h := Reachable.next (.load ⟨1, 1, 5⟩ (-100)) reach_w2 (by decide)
  rwa [stepEq_stateC6] at h

/-- Counterexample to C6 as stated: in the reachable state `stateC6` the
starship is loading and its most recent shipment record (hour −100)
predates the staleness threshold (cutoff −1 at sweep time 0), yet after
the sweep the starship still has status `loading`: the sweep deleted the
record first (it is also older than the retention cutoff −24) and then
found no remaining row to judge staleness by. -/
theorem C6_counterexample :
    Reachable stateC6 ∧
    (findStarship stateC6 1).map Starship.status = some StarshipStatus.loading ∧
    latestCreatedAt stateC6.shipments 1 = some (-100) ∧
    ((-100 : ℤ) < 0 - STUCK_LOADING_HOURS) ∧
    step (.cleanup 0) stateC6 = (.ok .empty, stateC6p) ∧
    (findStarship stateC6p 1).map Starship.status = some StarshipStatus.loading := by
  refine ⟨reach_stateC6, rfl, by with_unfolding_all rfl, by decide, ?_, rfl⟩
  with_unfolding_all rfl

/-! Claim C2: capacity/volume sums. -/

theorem findCargo_setCargoQuantity_any (s : State) (cid : Nat) (q : ℤ) (i : Nat) :
    findCargo (setCargoQuantity s cid q) i =
      (findCargo s i).map fun c => if c.id = cid then { c with quantity := q } else c := by
  unfold findCargo setCargoQuantity
  rw [List.find?_map]
  have hp : ((fun c => decide (c.id = i)) ∘ fun c =>
      if c.id = cid then ({ c with quantity := q } : Cargo) else c) =
      fun c => decide (c.id = i) := by
    funext c
    by_cases h : c.id = cid <;> simp [h, Function.comp]
  rw [hp]

/-- Two states with the same cargo table produce the same in-flight sums. -/
theorem sumLoadQ_cargos_eq {s1 s2 : State} (h : s1.cargos = s2.cargos) (f : Cargo → ℚ)
    (l : List ShipmentHistory) : sumLoadQ f s1 l = sumLoadQ f s2 l := by
  induction l with
  | nil => rfl
  | cons sh rest ih =>
    unfold sumLoadQ
    rw [ih]
    unfold findCargo
    rw [h]

/-- Updating a cargo's on-hand quantity changes no per-unit weight or
volume, hence no in-flight sum. -/
theorem sumLoadQ_setCargoQuantity (f : Cargo → ℚ)
    (hf : ∀ c q, f { c with quantity := q } = f c) (s : State) (cid : Nat) (q : ℤ)
    (l : List ShipmentHistory) :
    sumLoadQ f (setCargoQuantity s cid q) l = sumLoadQ f s l := by
  induction l with
  | nil => rfl
  | cons sh rest ih =>
    unfold sumLoadQ
    rw [ih, findCargo_setCargoQuantity_any]
    cases hc : findCargo s sh.cargo_id with
    | none => rfl
    | some c =>
      have hfc : f (if c.id = cid then { c with quantity := q } else c) = f c := by
        by_cases h : c.id = cid
        · rw [if_pos h]
          exact hf c q
        · rw [if_neg h]
      cases hr : sumLoadQ f s rest with
      | none => rfl
      | some ar =>
        show some ((sh.quantity : ℚ) * f (if c.id = cid then { c with quantity := q } else c) + ar)
          = some ((sh.quantity : ℚ) * f c + ar)
        rw [hfc]

theorem sumLoadQ_concat (f : Cargo → ℚ) (s : State) (l : List ShipmentHistory)
    (sh : ShipmentHistory) {c : Cargo} (hc : findCargo s sh.cargo_id = some c) {a : ℚ}
    (hl : sumLoadQ f s l = some a) :
    sumLoadQ f s (l ++ [sh]) = some (a + (sh.quantity : ℚ) * f c) := by
  induction l generalizing a with
  | nil =>
    simp only [sumLoadQ, Option.some.injEq] at hl
    subst hl
    simp only [List.nil_append, sumLoadQ, hc]
    congr 1
    ring
  | cons sh' rest ih =>
    cases hfc' : findCargo s sh'.cargo_id with
    | none => simp [sumLoadQ, hfc'] at hl
    | some c' =>
      cases hr : sumLoadQ f s rest with
      | none => simp [sumLoadQ, hfc', hr] at hl
      | some ar =>
        have hstep := ih hr
        have hstep' : sumLoadQ f s (rest.append [sh]) =
            some (ar + (sh.quantity : ℚ) * f c) := hstep
        simp only [sumLoadQ, hfc', hr, Option.some.injEq] at hl
        simp only [List.cons_append, sumLoadQ, hfc', hstep', Option.some.injEq]
        rw [← hl]
        ring

/-- Loading appends exactly the new row to the starship's loading set. -/
theorem loadingShipmentsFor_loadResultState (req : ShipmentCreate) (now : ℤ) (s : State)
    (c : Cargo) (st : Starship) (hid : st.id = req.starship_id) :
    loadingShipmentsFor (loadResultState req now s c st) st.id =
      loadingShipmentsFor s st.id ++ [newShipmentRow req now s] := by
  show (s.shipments ++ [newShipmentRow req now s]).filter _ = _
  rw [List.filter_append]
  congr 1
  simp [newShipmentRow, hid]

/-- Claim C2 (amended): immediately after any successful load, the loaded
starship's in-flight weight and volume sums are defined and within its
capacity and volume; the handler's guards make the committed sums equal
to the pre-state sums plus the new shipment's contribution, and both are
bounded. -/
theorem C2_load_respects_limits (req : ShipmentCreate) (now : ℤ) (s : State) :
    ∀ st c w v, findStarship s req.starship_id = some st →
      st.status = StarshipStatus.available → findCargo s req.cargo_id = some c →
      ¬ c.quantity < req.quantity →
      sumLoadQ Cargo.weight s (loadingShipmentsFor s st.id) = some w →
      sumLoadQ Cargo.volume s (loadingShipmentsFor s st.id) = some v →
      ¬ w + (req.quantity : ℚ) * c.weight > st.capacity →
      ¬ v + (req.quantity : ℚ) * c.volume > st.volume →
      step (.load req now) s =
        (.ok (.shipment (newShipmentRow req now s)), loadResultState req now s c st) ∧
      sumLoadQ Cargo.weight (loadResultState req now s c st)
          (loadingShipmentsFor (loadResultState req now s c st) st.id) =
        some (w + (req.quantity : ℚ) * c.weight) ∧
      w + (req.quantity : ℚ) * c.weight ≤ st.capacity ∧
      sumLoadQ Cargo.volume (loadResultState req now s c st)
          (loadingShipmentsFor (loadResultState req now s c st) st.id) =
        some (v + (req.quantity : ℚ) * c.volume) ∧
      v + (req.quantity : ℚ) * c.volume ≤ st.volume := by
  intro st c w v h hs hc hq hw hv hcw hcv
  have hid : st.id = req.starship_id := findStarship_eq_id h
  have hcid : c.id = req.cargo_id := findCargo_eq_id hc
  have hcargos : (loadResultState req now s c st).cargos =
      (setCargoQuantity s c.id (c.quantity - req.quantity)).cargos := rfl
  have hsum : ∀ (f : Cargo → ℚ), (∀ c0 q0, f { c0 with quantity := q0 } = f c0) →
      ∀ l, sumLoadQ f (loadResultState req now s c st) l = sumLoadQ f s l := by
    intro f hf l
    rw [sumLoadQ_cargos_eq hcargos f l, sumLoadQ_setCargoQuantity f hf s c.id _ l]
  have hnewc : findCargo s (newShipmentRow req now s).cargo_id = some c := by
    show findCargo s req.cargo_id = some c
    exact hc
  refine ⟨step_eq_of_handle_committed (r := .load req now)
      (load_cargo_success h hs hc hq hw hv hcw hcv), ?_, not_lt.mp hcw, ?_, not_lt.mp hcv⟩
  · rw [loadingShipmentsFor_loadResultState req now s c st hid,
      hsum Cargo.weight (fun _ _ => rfl) _]
    exact sumLoadQ_concat Cargo.weight s _ _ hnewc hw
  · rw [loadingShipmentsFor_loadResultState req now s c st hid,
      hsum Cargo.volume (fun _ _ => rfl) _]
    exact sumLoadQ_concat Cargo.volume s _ _ hnewc hv

/-- Witness for C2: loading 10 Ore onto the empty Falcon makes the
in-flight weight sum 0 + 10·1, which is within capacity 100. -/
theorem C2_load_respects_limits_witness :
    sumLoadQ Cargo.weight
      (loadResultState ⟨1, 1, 10⟩ 0 w2 ⟨1, "Ore", 100, 1, 1⟩
        ⟨1, "Falcon", 100, 100, 10, .available⟩)
      (loadingShipmentsFor
        (loadResultState ⟨1, 1, 10⟩ 0 w2 ⟨1, "Ore", 100, 1, 1⟩
          ⟨1, "Falcon", 100, 100, 10, .available⟩) 1) =
      some ((0 : ℚ) + ((10 : ℤ) : ℚ) * (1 : ℚ)) ∧
    ((0 : ℚ) + ((10 : ℤ) : ℚ) * (1 : ℚ)) ≤ (100 : ℚ) := by
  have h := C2_load_respects_limits ⟨1, 1, 10⟩ 0 w2
    ⟨1, "Falcon", 100, 100, 10, .available⟩ ⟨1, "Ore", 100, 1, 1⟩ 0 0
    rfl rfl rfl (by decide) rfl rfl
    (by with_unfolding_all decide) (by with_unfolding_all decide)
  exact ⟨h.2.1, h.2.2.1⟩

/-- `w3` after `PUT /api/cargo/1` raising the unit weight from 1 to 20
while shipment 1 (10 units) is still loading. -/
def stateC2 : State :=
  ⟨[⟨1, "Falcon", 100, 100, 10, .loading⟩], [⟨1, "Ore", 90, 20, 1⟩],
   [⟨1, 1, 1, 10, .loading, 0⟩], 2, 2, 2⟩

theorem stepEq_stateC2 : (step (.updateCargo 1 ⟨"Ore", 90, 20, 1⟩) w3).2 = stateC2 := by
  with_unfolding_all rfl

theorem reach_stateC2 : Reachable stateC2 := by
  have h := Reachable.next (.updateCargo 1 ⟨"Ore", 90, 20, 1⟩) reach_w3 (by decide)
  rwa [stepEq_stateC2] at h

/-- Counterexample to C2 as stated: the reachable state `stateC2` (built
by a load followed by a cargo update that raises the unit weight) has an
in-flight weight sum of 200 against a capacity of 100 — the invariant is
not preserved by `update_cargo`, which re-checks nothing. -/
theorem C2_counterexample :
    Reachable stateC2 ∧
    findStarship stateC2 1 = some ⟨1, "Falcon", 100, 100, 10, .loading⟩ ∧
    sumLoadQ Cargo.weight stateC2 (loadingShipmentsFor stateC2 1) = some 200 ∧
    ¬ (200 : ℚ) ≤ (100 : ℚ) := by
  refine ⟨reach_stateC2, rfl, ?_, by with_unfolding_all decide⟩
  with_unfolding_all rfl

/-! Claim C7: cargo quantities never go negative.  The invariant is proved
inductively over all reachable states; it needs the companion fact that
every shipment row carries a positive quantity. -/

/-- Every cargo row has a non-negative on-hand quantity. -/
def cargosNonneg (s : State) : Prop := ∀ c ∈ s.cargos, 0 ≤ c.quantity

/-- Every shipment row carries a positive quantity. -/
def shipmentsPos (s : State) : Prop := ∀ sh ∈ s.shipments, 0 < sh.quantity

theorem cargosNonneg_setCargoQuantity {s : State} (h : cargosNonneg s) {q : ℤ} (hq : 0 ≤ q)
    (cid : Nat) : cargosNonneg (setCargoQuantity s cid q) := by
  intro c' hc'
  rcases List.mem_map.mp hc' with ⟨c0, hc0, rfl⟩
  by_cases hid : c0.id = cid
  · rw [if_pos hid]
    exact hq
  · rw [if_neg hid]
    exact h c0 hc0

theorem cargosNonneg_setStarshipStatus {s : State} (h : cargosNonneg s) (sid : Nat)
    (ns : StarshipStatus) : cargosNonneg (setStarshipStatus s sid ns) := h

theorem cargosNonneg_setShipmentStatus {s : State} (h : cargosNonneg s) (hid : Nat)
    (ns : ShipmentStatus) : cargosNonneg (setShipmentStatus s hid ns) := h

theorem shipmentsPos_setCargoQuantity {s : State} (h : shipmentsPos s) (cid : Nat) (q : ℤ) :
    shipmentsPos (setCargoQuantity s cid q) := h

theorem shipmentsPos_setStarshipStatus {s : State} (h : shipmentsPos s) (sid : Nat)
    (ns : StarshipStatus) : shipmentsPos (setStarshipStatus s sid ns) := h

theorem shipmentsPos_setShipmentStatus {s : State} (h : shipmentsPos s) (hid : Nat)
    (ns : ShipmentStatus) : shipmentsPos (setShipmentStatus s hid ns) := by
  intro sh' hsh'
  rcases List.mem_map.mp hsh' with ⟨sh0, hsh0, rfl⟩
  by_cases hi : sh0.id = hid
  · rw [if_pos hi]
    exact h sh0 hsh0
  · rw [if_neg hi]
    exact h sh0 hsh0

theorem load_cargo_inv {req : ShipmentCreate} {now : ℤ} {s : State} {resp : Response}
    {s' : State} (heq : load_cargo req now s = .committed resp s')
    (hv : 0 < req.quantity) (h1 : cargosNonneg s) (h2 : shipmentsPos s) :
    cargosNonneg s' ∧ shipmentsPos s' := by
  unfold load_cargo at heq
  repeat' split at heq
  all_goals try cases heq
  rename_i x1 st hst hstatus x2 c hc hq x3 x4 w v hwS hvS hcw hcv
  constructor
  · intro c' hc'
    rcases List.mem_map.mp hc' with ⟨c0, hc0, rfl⟩
    by_cases hid : c0.id = c.id
    · rw [if_pos hid]
      have hcq := h1 c (findCargo_mem hc)
      show 0 ≤ c.quantity - req.quantity
      omega
    · rw [if_neg hid]
      exact h1 c0 hc0
  · intro sh' hsh'
    rcases List.mem_append.mp hsh' with hold | hnew
    · exact h2 sh' hold
    · rw [List.mem_singleton] at hnew
      subst hnew
      exact hv

theorem create_starship_inv {req : StarshipBase} {s : State} {resp : Response} {s' : State}
    (heq : create_starship req s = .committed resp s')
    (h1 : cargosNonneg s) (h2 : shipmentsPos s) : cargosNonneg s' ∧ shipmentsPos s' := by
  unfold create_starship at heq
  repeat' split at heq
  all_goals try cases heq
  exact ⟨fun c hc => h1 c hc, fun sh hsh => h2 sh hsh⟩

theorem update_starship_inv {sid : Nat} {req : StarshipBase} {s : State} {resp : Response}
    {s' : State} (heq : update_starship sid req s = .committed resp s')
    (h1 : cargosNonneg s) (h2 : shipmentsPos s) : cargosNonneg s' ∧ shipmentsPos s' := by
  unfold update_starship at heq
  repeat' split at heq
  all_goals try cases heq
  exact ⟨fun c hc => h1 c hc, fun sh hsh => h2 sh hsh⟩

theorem delete_starship_inv {sid : Nat} {s : State} {resp : Response} {s' : State}
    (heq : delete_starship sid s = .committed resp s')
    (h1 : cargosNonneg s) (h2 : shipmentsPos s) : cargosNonneg s' ∧ shipmentsPos s' := by
  unfold delete_starship at heq
  repeat' split at heq
  all_goals try cases heq
  exact ⟨fun c hc => h1 c hc, fun sh hsh => h2 sh hsh⟩

theorem update_starship_status_inv {sid : Nat} {ns : StarshipStatus} {s : State}
    {resp : Response} {s' : State} (heq : update_starship_status sid ns s = .committed resp s')
    (h1 : cargosNonneg s) (h2 : shipmentsPos s) : cargosNonneg s' ∧ shipmentsPos s' := by
  unfold update_starship_status at heq
  repeat' split at heq
  all_goals try cases heq
  exact ⟨cargosNonneg_setStarshipStatus h1 sid ns, shipmentsPos_setStarshipStatus h2 sid ns⟩

theorem create_cargo_inv {req : CargoBase} {s : State} {resp : Response} {s' : State}
    (heq : create_cargo req s = .committed resp s') (hv : 0 ≤ req.quantity)
    (h1 : cargosNonneg s) (h2 : shipmentsPos s) : cargosNonneg s' ∧ shipmentsPos s' := by
  unfold create_cargo at heq
  repeat' split at heq
  all_goals try cases heq
  constructor
  · intro c' hc'
    rcases List.mem_append.mp hc' with hold | hnew
    · exact h1 c' hold
    · rw [List.mem_singleton] at hnew
      subst hnew
      exact hv
  · exact fun sh hsh => h2 sh hsh

theorem update_cargo_inv {cid : Nat} {req : CargoBase} {s : State} {resp : Response}
    {s' : State} (heq : update_cargo cid req s = .committed resp s') (hv : 0 ≤ req.quantity)
    (h1 : cargosNonneg s) (h2 : shipmentsPos s) : cargosNonneg s' ∧ shipmentsPos s' := by
  unfold update_cargo at heq
  repeat' split at heq
  all_goals try cases heq
  constructor
  · intro c' hc'
    rcases List.mem_map.mp hc' with ⟨c0, hc0, rfl⟩
    by_cases hid : c0.id = cid
    · rw [if_pos hid]
      exact hv
    · rw [if_neg hid]
      exact h1 c0 hc0
  · exact fun sh hsh => h2 sh hsh

theorem delete_cargo_inv {cid : Nat} {s : State} {resp : Response} {s' : State}
    (heq : delete_cargo cid s = .committed resp s')
    (h1 : cargosNonneg s) (h2 : shipmentsPos s) : cargosNonneg s' ∧ shipmentsPos s' := by
  unfold delete_cargo at heq
  repeat' split at heq
  all_goals try cases heq
  constructor
  · intro c' hc'
    exact h1 c' (List.mem_filter.mp hc').1
  · exact fun sh hsh => h2 sh hsh

theorem cancel_loading_inv {hid : Nat} {s : State} {resp : Response} {s' : State}
    (heq : cancel_loading hid s = .committed resp s')
    (h1 : cargosNonneg s) (h2 : shipmentsPos s) : cargosNonneg s' ∧ shipmentsPos s' := by
  unfold cancel_loading at heq
  repeat' split at heq
  all_goals try cases heq
  rename_i x1 sh hsh hstat x2 c hc x3 st hst
  have hq : (0 : ℤ) ≤ c.quantity + sh.quantity := by
    have := h1 c (findCargo_mem hc)
    have := h2 sh (findShipment_mem hsh)
    omega
  exact ⟨cargosNonneg_setShipmentStatus
      (cargosNonneg_setStarshipStatus (cargosNonneg_setCargoQuantity h1 hq c.id) st.id _) hid _,
    shipmentsPos_setShipmentStatus
      (shipmentsPos_setStarshipStatus (shipmentsPos_setCargoQuantity h2 c.id _) st.id _) hid _⟩

theorem update_shipment_status_inv {hid : Nat} {ns : ShipmentStatus} {s : State}
    {resp : Response} {s' : State} (heq : update_shipment_status hid ns s = .committed resp s')
    (h1 : cargosNonneg s) (h2 : shipmentsPos s) : cargosNonneg s' ∧ shipmentsPos s' := by
  unfold update_shipment_status at heq
  cases hsh : findShipment s hid with
  | none =>
    simp only [hsh] at heq
    cases heq
  | some sh =>
    simp only [hsh] at heq
    have hmem := findShipment_mem hsh
    cases ns with
    | cancelled =>
      cases hc : findCargo s sh.cargo_id with
      | none =>
        simp only [hc] at heq
        cases heq
      | some c =>
        simp only [hc] at heq
        cases hst : findStarship s sh.starship_id with
        | none =>
          simp only [hst] at heq
          cases heq
        | some st =>
          simp only [hst] at heq
          cases heq
          have hq : (0 : ℤ) ≤ c.quantity + sh.quantity := by
            have := h1 c (findCargo_mem hc)
            have := h2 sh hmem
            omega
          by_cases ho : otherLoading (setCargoQuantity s c.id (c.quantity + sh.quantity)) st.id hid
          · rw [if_pos ho]
            exact ⟨cargosNonneg_setShipmentStatus (cargosNonneg_setCargoQuantity h1 hq c.id) hid _,
              shipmentsPos_setShipmentStatus (shipmentsPos_setCargoQuantity h2 c.id _) hid _⟩
          · rw [if_neg ho]
            exact ⟨cargosNonneg_setShipmentStatus
                (cargosNonneg_setStarshipStatus (cargosNonneg_setCargoQuantity h1 hq c.id) st.id _)
                hid _,
              shipmentsPos_setShipmentStatus
                (shipmentsPos_setStarshipStatus (shipmentsPos_setCargoQuantity h2 c.id _) st.id _)
                hid _⟩
    | completed =>
      cases hst : findStarship s sh.starship_id with
      | none =>
        simp only [hst] at heq
        cases heq
      | some st =>
        simp only [hst] at heq
        cases heq
        by_cases ho : otherLoading s st.id hid
        · rw [if_pos ho]
          exact ⟨cargosNonneg_setShipmentStatus h1 hid _,
            shipmentsPos_setShipmentStatus h2 hid _⟩
        · rw [if_neg ho]
          exact ⟨cargosNonneg_setShipmentStatus (cargosNonneg_setStarshipStatus h1 st.id _) hid _,
            shipmentsPos_setShipmentStatus (shipmentsPos_setStarshipStatus h2 st.id _) hid _⟩
    | loading =>
      cases heq
      exact ⟨cargosNonneg_setShipmentStatus h1 hid _, shipmentsPos_setShipmentStatus h2 hid _⟩
    | failed =>
      cases heq
      exact ⟨cargosNonneg_setShipmentStatus h1 hid _, shipmentsPos_setShipmentStatus h2 hid _⟩

theorem cleanup_inv {now : ℤ} {s : State} {resp : Response} {s' : State}
    (heq : cleanup_old_data now s = .committed resp s')
    (h1 : cargosNonneg s) (h2 : shipmentsPos s) : cargosNonneg s' ∧ shipmentsPos s' := by
  rw [show cleanup_old_data now s = .committed .empty (cleanupState now s) from rfl] at heq
  cases heq
  constructor
  · exact fun c hc => h1 c hc
  · intro sh hsh
    exact h2 sh (List.mem_filter.mp hsh).1

/-- Every request preserves the quantity invariants. -/
theorem step_preserves_inv (r : Request) (s : State) (hv : r.valid)
    (h1 : cargosNonneg s) (h2 : shipmentsPos s) :
    cargosNonneg (step r s).2 ∧ shipmentsPos (step r s).2 := by
  unfold step
  cases hh : handle r s with
  | raised e s'' => exact ⟨h1, h2⟩
  | committed resp s' =>
    cases r with
    | load req now => exact load_cargo_inv hh hv h1 h2
    | createStarship req => exact create_starship_inv hh h1 h2
    | updateStarship sid req => exact update_starship_inv hh h1 h2
    | deleteStarship sid => exact delete_starship_inv hh h1 h2
    | createCargo req => exact create_cargo_inv hh hv.2.2.1 h1 h2
    | updateCargo cid req => exact update_cargo_inv hh hv.2.2.1 h1 h2
    | deleteCargo cid => exact delete_cargo_inv hh h1 h2
    | cancelLoading hid => exact cancel_loading_inv hh h1 h2
    | updateStarshipStatus sid ns => exact update_starship_status_inv hh h1 h2
    | updateShipmentStatus hid ns => exact update_shipment_status_inv hh h1 h2
    | cleanup now => exact cleanup_inv hh h1 h2

/-- Claim C7: in every reachable state every cargo quantity is ≥ 0.  The
load handler decrements only after checking `cargo.quantity < quantity`
(with the schema forcing the requested quantity > 0), cancellations add
positive shipment quantities, and cargo create/update bodies are
validated to quantity ≥ 0, so no operation drives a quantity negative. -/
theorem C7_cargo_nonneg (s : State) (h : Reachable s) :
    ∀ c, c ∈ s.cargos → 0 ≤ c.quantity := by
  have main : cargosNonneg s ∧ shipmentsPos s := by
    induction h with
    | init =>
      exact ⟨fun c hc => absurd hc (List.not_mem_nil c),
        fun sh hsh => absurd hsh (List.not_mem_nil sh)⟩
    | next r hr hv ih => exact step_preserves_inv r _ hv ih.1 ih.2
  exact fun c hc => main.1 c hc

/-- Witness for C7: the reachable state `w2` contains the Ore cargo and
its quantity 100 is indeed non-negative. -/
theorem C7_cargo_nonneg_witness : 0 ≤ (⟨1, "Ore", 100, 1, 1⟩ : Cargo).quantity :=
  C7_cargo_nonneg w2 reach_w2 ⟨1, "Ore", 100, 1, 1⟩ (by decide)

end Warehouse
